import Mathlib

/-!
Shallow embedding of the premium-calculator core of `src/app.py`:
the rate-file ingestion (`load_rates`), the unit conversion
(`unit_to_multiplier`) and the premium aggregation (`calc_total`).

Modelling conventions:
* Python floats are modelled as `Rat` (all the arithmetic the claims touch
  is exact: divisions by 10^3/10^4 and sums).
* A pandas `DataFrame` of rate rows is modelled as `List RateRow`, in row
  order; `DataFrame.filter`-style boolean masking keeps row order, as does
  `pd.concat`.
* Python exceptions (`ValueError`, pandas `KeyError`) are modelled by the
  `CalcError` inductive carried in `Except`.
-/

namespace ProductApp

/-- One normalized row of the unified rate table (one CSV row after
`load_rates` normalization). -/
structure RateRow where
  product_code : String
  product_name : String
  unit : String
  age : Int
  sex : String
  rate : Rat
deriving DecidableEq, Repr

/-- One basket entry, as built by the UI:
`{"product_code": code, "product_name": name, "amount": float(amount), "qty": int(qty)}`. -/
structure Item where
  product_code : String
  product_name : String
  amount : Rat
  qty : Int
deriving DecidableEq, Repr

/-- One row of `rows_year` / `df_detail` in `calc_total`
(keys 年齡, 商品代碼, 商品名稱, unit, 保額(元), 份數, 每單位費率, 當年保費(元)). -/
structure DetailRow where
  age : Int
  product_code : String
  product_name : String
  unit : String
  amount : Int
  qty : Int
  unit_rate : Rat
  year_premium : Rat
deriving DecidableEq, Repr

/-- One row of `df_year_sum`: 年齡, 當年保費(元), 累計(元). -/
structure YearRow where
  age : Int
  year_total : Rat
  cumulative : Rat
deriving DecidableEq, Repr

/-- The typed errors the Python code raises (`ValueError` with distinct
messages, plus the pandas `KeyError` raised by `groupby` on a column that
does not exist). Payloads keep the identifying data interpolated into the
message strings. -/
inductive CalcError where
  | invalidRange
  | productNotFound (code : String) (sex : String)
  | inconsistentUnit (code : String) (units : List String)
  | unsupportedUnit (unit : String)
  | missingAges (code : String) (missing : List Int)
  | keyError (col : String)
  | encodingError (file : String)
  | schemaError (missingCols : List String)
  | castError (col : String)
  | dataTypeError
deriving DecidableEq, Repr

instance {ε α : Type} [DecidableEq ε] [DecidableEq α] : DecidableEq (Except ε α) := fun a b =>
  match a, b with
  | .error x, .error y =>
    if h : x = y then isTrue (by rw [h]) else isFalse (fun hh => h (Except.error.inj hh))
  | .ok x, .ok y =>
    if h : x = y then isTrue (by rw [h]) else isFalse (fun hh => h (Except.ok.inj hh))
  | .error _, .ok _ => isFalse (fun hh => Except.noConfusion hh)
  | .ok _, .error _ => isFalse (fun hh => Except.noConfusion hh)

/-- Python `int()` on a float: truncation toward zero. -/
def pyInt (q : Rat) : Int :=
  if 0 ≤ q then q.floor else -((-q).floor)

/-- Embeds `unit_to_multiplier(unit, amount)` (src/app.py lines 59-68):
per_10k divides by 10_000, per_1k by 1_000, per_1 returns the amount;
anything else raises `不支援的 unit`. -/
def unit_to_multiplier (unit : String) (amount : Rat) : Except CalcError Rat :=
  if unit = "per_10k" then .ok (amount / 10000)
  else if unit = "per_1k" then .ok (amount / 1000)
  else if unit = "per_1" then .ok amount
  else .error (.unsupportedUnit unit)

/-- Embeds `list(range(int(start_age), int(end_age) + (1 if include_end else 0)))`
(src/app.py line 146). Python `range(a, b)` is `[a, a+1, …, b-1]`, empty when
`b ≤ a`. -/
def agesList (start_age end_age : Int) (include_end : Bool) : List Int :=
  (List.range (end_age + (if include_end then 1 else 0) - start_age).toNat).map
    (fun (i : Nat) => start_age + (i : Int))

/-- Helper for `uniqueList`: keeps the elements not already seen. -/
def uniqueAux (seen : List String) : List String → List String
  | [] => []
  | u :: us => if u ∈ seen then uniqueAux seen us else u :: uniqueAux (u :: seen) us

/-- Embeds `pandas.Series.unique` on the `unit` column of `sub`: the distinct
values in order of first occurrence. -/
def uniqueList (l : List String) : List String :=
  uniqueAux [] l

/-- Embeds the lookup in `rate_map = sub.set_index("age")["rate"].to_dict()`
(src/app.py line 166): a dict built row by row, so for a duplicated age the
LAST row wins. `none` models `a not in rate_map`. -/
def rate_map (sub : List RateRow) (a : Int) : Option Rat :=
  (sub.reverse.find? (fun r => r.age == a)).map (fun r => r.rate)

/-- Embeds `rates_df[(rates_df["product_code"] == code) & (rates_df["sex"] == sex)]`
(src/app.py line 154): boolean-mask filtering, keeping row order. -/
def subFor (rates_df : List RateRow) (code sex : String) : List RateRow :=
  rates_df.filter (fun r => r.product_code == code && r.sex == sex)

/-- The detail row `calc_total` appends to `rows_year` for one age of one item
(src/app.py lines 171-183). The age-coverage check has already ensured the
lookup succeeds, so the `getD` default is never taken. -/
def detailRowOf (sub : List RateRow) (item : Item) (u : String)
    (multiplier : Rat) (a : Int) : DetailRow :=
  let rate := (rate_map sub a).getD 0
  { age := a
    product_code := item.product_code
    product_name := item.product_name
    unit := u
    amount := pyInt item.amount
    qty := item.qty
    unit_rate := rate
    year_premium := rate * multiplier }

/-- Embeds one iteration of the `for item in items` loop of `calc_total`
(src/app.py lines 149-183): filter the rate table by (product_code, sex),
check non-emptiness, check unit consistency, convert the face amount, check
age coverage, then emit one detail row per age of the target sequence. -/
def processItem (rates_df : List RateRow) (sex : String) (ages : List Int)
    (item : Item) : Except CalcError (List DetailRow) :=
  let sub := subFor rates_df item.product_code sex
  if sub.isEmpty then
    .error (.productNotFound item.product_code sex)
  else
    match uniqueList (sub.map (fun r => r.unit)) with
    | [u] =>
      match unit_to_multiplier u item.amount with
      | .error e => .error e
      | .ok m =>
        let multiplier := m * (item.qty : Rat)
        let missing := ages.filter (fun a => (rate_map sub a).isNone)
        if missing.isEmpty then
          .ok (ages.map (detailRowOf sub item u multiplier))
        else
          .error (.missingAges item.product_code missing)
    | us => .error (.inconsistentUnit item.product_code us)

/-- The whole `for item in items` loop: the first raised error aborts the
loop; per-item row blocks are appended in item order. -/
def calcRows (rates_df : List RateRow) (sex : String) (ages : List Int) :
    List Item → Except CalcError (List DetailRow)
  | [] => .ok []
  | item :: rest =>
    match processItem rates_df sex ages item with
    | .error e => .error e
    | .ok rows =>
      match calcRows rates_df sex ages rest with
      | .error e => .error e
      | .ok more => .ok (rows ++ more)

/-- Sum of `當年保費(元)` over the detail rows of one age: the aggregation
done by `groupby("年齡")["當年保費(元)"].sum()`. -/
def sumPremAt (rows : List DetailRow) (a : Int) : Rat :=
  ((rows.filter (fun r => r.age == a)).map (fun r => r.year_premium)).sum

/-- The group keys of `groupby("年齡")` followed by `.sort_values("年齡")`:
the distinct ages of the detail rows in ascending order. -/
def agesOf (rows : List DetailRow) : List Int :=
  List.insertionSort (fun a b => a ≤ b) (rows.map (fun r => r.age)).dedup

/-- The `cumsum` pass: emits one `YearRow` per age carrying the running
total `acc` accumulated so far. -/
def runningRows (rows : List DetailRow) : List Int → Rat → List YearRow
  | [], _ => []
  | a :: rest, acc =>
    let t := sumPremAt rows a
    { age := a, year_total := t, cumulative := acc + t } :: runningRows rows rest (acc + t)

/-- Embeds `df_year_sum` construction (src/app.py lines 187-192): group the
detail rows by age, sum the year premiums, sort by age, then take the
cumulative sum. -/
def yearSummary (rows : List DetailRow) : List YearRow :=
  runningRows rows (agesOf rows) 0

/-- Embeds `calc_total(rates_df, items, sex, start_age, end_age, include_end)`
(src/app.py lines 142-195). Note: when `rows_year` is empty,
`pd.DataFrame(rows_year)` is a DataFrame with NO columns, and
`df_detail.groupby("年齡", ...)` then raises `KeyError: 年齡`; the
`rows.isEmpty` branch embeds exactly that pandas behavior. -/
def calc_total (rates_df : List RateRow) (items : List Item) (sex : String)
    (start_age end_age : Int) (include_end : Bool) :
    Except CalcError (Rat × List DetailRow × List YearRow) :=
  if end_age < start_age then .error .invalidRange
  else
    let ages := agesList start_age end_age include_end
    match calcRows rates_df sex ages items with
    | .error e => .error e
    | .ok rows =>
      if rows.isEmpty then .error (.keyError "年齡")
      else
        let summary := yearSummary rows
        let total := (summary.map (fun y => y.year_total)).sum
        .ok (total, rows, summary)

/-! ### load_rates (src/app.py lines 11-57)

A raw CSV cell is modelled by `Cell`: `num q` for a value pandas reads (or
`pd.to_numeric` coerces) as the number `q`, `txt s` for text that is not
numeric. A cell absent after `pd.concat` (a column present only in another
file) is NaN, which behaves like non-numeric text for the coercions used
here. -/

/-- Raw CSV cell as parsed by `pd.read_csv`. -/
inductive Cell where
  | num (q : Rat)
  | txt (s : String)
deriving DecidableEq, Repr

/-- One parsed CSV file: column names and rows as association lists. -/
structure RawTable where
  cols : List String
  rows : List (List (String × Cell))
deriving Repr

/-- One file found by `glob` in the rates directory; `decoded = none` means
none of the four tried encodings (utf-8, utf-8-sig, cp950, big5) decodes it. -/
structure CsvFile where
  name : String
  decoded : Option RawTable
deriving Repr

/-- Cell of a named column in a row; a column missing from this row (NaN
after `pd.concat`) is non-numeric text. -/
def getCell (row : List (String × Cell)) (c : String) : Cell :=
  ((row.find? (fun p => p.1 == c)).map (fun p => p.2)).getD (.txt "nan")

/-- Python `str()` of a cell (`astype(str)`). -/
def cellText : Cell → String
  | .num q => toString q
  | .txt s => s

/-- `pd.to_numeric(·, errors="coerce")`: numeric cells pass, text becomes
NaN (`none`). -/
def cellNumeric : Cell → Option Rat
  | .num q => some q
  | .txt _ => none

/-- `.astype(int)`: truncation for numeric cells, raises on text (`none`). -/
def cellInt : Cell → Option Int
  | .num q => some (pyInt q)
  | .txt _ => none

/-- The per-file read loop (src/app.py lines 22-37): the first file no
encoding can decode raises; otherwise all parsed tables are collected in
order. The `source_file` tag is diagnostics only and not modelled. -/
def readTables : List CsvFile → Except CalcError (List RawTable)
  | [] => .ok []
  | f :: fs =>
    match f.decoded with
    | none => .error (.encodingError f.name)
    | some t =>
      match readTables fs with
      | .error e => .error e
      | .ok ts => .ok (t :: ts)

/-- The required columns of the concatenated table. -/
def requiredCols : List String :=
  ["product_code", "product_name", "unit", "age", "sex", "rate"]

/-- Normalization of one concatenated row into a `RateRow`
(src/app.py lines 46-51), applied only after the column casts are known to
succeed: trim/uppercase the string columns, truncate age, coerce rate. -/
def normalizeRow (row : List (String × Cell)) : RateRow :=
  { product_code := (cellText (getCell row "product_code")).trim
    product_name := (cellText (getCell row "product_name")).trim
    unit := (cellText (getCell row "unit")).trim
    age := (cellInt (getCell row "age")).getD 0
    sex := ((cellText (getCell row "sex")).trim).toUpper
    rate := (cellNumeric (getCell row "rate")).getD 0 }

/-- Embeds `load_rates(rates_dir)` (src/app.py lines 11-57). `dirExists`
models `os.path.isdir(rates_dir)`; `files` the `glob` result. A missing
directory or an empty glob returns an empty table with no error. Otherwise:
decode every file, concatenate, check the required columns, cast `age` to
int (raises on non-numeric text), coerce `rate` (any NaN raises), and
return the normalized rows. -/
def load_rates (dirExists : Bool) (files : List CsvFile) :
    Except CalcError (List RateRow) :=
  if dirExists = false then .ok []
  else if files.isEmpty then .ok []
  else
    match readTables files with
    | .error e => .error e
    | .ok tables =>
      let allCols := tables.flatMap (fun t => t.cols)
      let missingCols := requiredCols.filter (fun c => ¬ c ∈ allCols)
      if missingCols.isEmpty = false then .error (.schemaError missingCols)
      else
        let allRows := tables.flatMap (fun t => t.rows)
        if allRows.any (fun row => (cellInt (getCell row "age")).isNone) then
          .error (.castError "age")
        else if allRows.any (fun row => (cellNumeric (getCell row "rate")).isNone) then
          .error .dataTypeError
        else
          .ok (allRows.map normalizeRow)

/-! ### Concrete fixtures used by the theorems below -/

/-- Rate table of the end-to-end scenario: product A001 ("TestLife"),
unit per_10k, sex M, ages 16-20, rate 5.0 at every age. -/
def repoA : List RateRow :=
  [ { product_code := "A001", product_name := "TestLife", unit := "per_10k", age := 16, sex := "M", rate := 5 },
    { product_code := "A001", product_name := "TestLife", unit := "per_10k", age := 17, sex := "M", rate := 5 },
    { product_code := "A001", product_name := "TestLife", unit := "per_10k", age := 18, sex := "M", rate := 5 },
    { product_code := "A001", product_name := "TestLife", unit := "per_10k", age := 19, sex := "M", rate := 5 },
    { product_code := "A001", product_name := "TestLife", unit := "per_10k", age := 20, sex := "M", rate := 5 } ]

/-- The requested item of the end-to-end scenario: A001, face amount
1,000,000, quantity 1. -/
def itemA : Item :=
  { product_code := "A001", product_name := "TestLife", amount := 1000000, qty := 1 }

/-- A table where (A001, M, 16) appears twice with different rates. -/
def repoDup : List RateRow :=
  [ { product_code := "A001", product_name := "T", unit := "per_10k", age := 16, sex := "M", rate := 5 },
    { product_code := "A001", product_name := "T", unit := "per_10k", age := 16, sex := "M", rate := 7 } ]

/-- An item matching `repoDup` with multiplier 1 (amount 10,000 at per_10k). -/
def itemDup : Item :=
  { product_code := "A001", product_name := "T", amount := 10000, qty := 1 }

/-- A table with two products A001 (rate 3) and B001 (rate 5), ages 16-17. -/
def repoTwo : List RateRow :=
  [ { product_code := "A001", product_name := "A", unit := "per_10k", age := 16, sex := "M", rate := 3 },
    { product_code := "A001", product_name := "A", unit := "per_10k", age := 17, sex := "M", rate := 3 },
    { product_code := "B001", product_name := "B", unit := "per_10k", age := 16, sex := "M", rate := 5 },
    { product_code := "B001", product_name := "B", unit := "per_10k", age := 17, sex := "M", rate := 5 } ]

/-- Basket entry for B001 in `repoTwo`, multiplier 1. -/
def itemB : Item := { product_code := "B001", product_name := "B", amount := 10000, qty := 1 }

/-- Basket entry for A001 in `repoTwo`, multiplier 1. -/
def itemA2 : Item := { product_code := "A001", product_name := "A", amount := 10000, qty := 1 }

/-- A table where product X mixes two unit conventions. -/
def repoU : List RateRow :=
  [ { product_code := "X", product_name := "X", unit := "per_10k", age := 16, sex := "M", rate := 5 },
    { product_code := "X", product_name := "X", unit := "per_1k", age := 17, sex := "M", rate := 5 } ]

/-- Basket entry for product X of `repoU`. -/
def itemU : Item := { product_code := "X", product_name := "X", amount := 10000, qty := 1 }

/-- A CSV file none of the tried encodings can decode. -/
def fileX : CsvFile := { name := "x.csv", decoded := none }

/-- Adjacent-pair check that a detail-row list is sorted by the key
(age, product_code) in ascending lexicographic order. -/
def leAgeCode (r s : DetailRow) : Bool :=
  r.age < s.age || (r.age == s.age && decide (r.product_code ≤ s.product_code))

/-- Whether a detail-row list is sorted by (age, product_code). -/
def sortedByAgeCode : List DetailRow → Bool
  | r :: s :: rest => leAgeCode r s && sortedByAgeCode (s :: rest)
  | _ => true

/-- The detail rows `calc_total` returns on `repoA`, `[itemA]`, window M 16-18
inclusive. -/
def detailA : List DetailRow :=
  [ { age := 16, product_code := "A001", product_name := "TestLife", unit := "per_10k",
      amount := 1000000, qty := 1, unit_rate := 5, year_premium := 500 },
    { age := 17, product_code := "A001", product_name := "TestLife", unit := "per_10k",
      amount := 1000000, qty := 1, unit_rate := 5, year_premium := 500 },
    { age := 18, product_code := "A001", product_name := "TestLife", unit := "per_10k",
      amount := 1000000, qty := 1, unit_rate := 5, year_premium := 500 } ]

/-- The year-summary rows matching `detailA`. -/
def suA : List YearRow :=
  [ { age := 16, year_total := 500, cumulative := 500 },
    { age := 17, year_total := 500, cumulative := 1000 },
    { age := 18, year_total := 500, cumulative := 1500 } ]

/-- The detail rows `calc_total` returns on `repoDup`, `[itemDup]`,
window M 16-16 inclusive: priced with the LAST duplicate row's rate 7. -/
def detailDup : List DetailRow :=
  [ { age := 16, product_code := "A001", product_name := "T", unit := "per_10k",
      amount := 10000, qty := 1, unit_rate := 7, year_premium := 7 } ]

/-- The year-summary rows matching `detailDup`. -/
def suDup : List YearRow :=
  [ { age := 16, year_total := 7, cumulative := 7 } ]

/-- The detail rows `calc_total` returns on `repoTwo`, `[itemB, itemA2]`,
window M 16-17 inclusive: all of B001's rows come before A001's. -/
def detailTwo : List DetailRow :=
  [ { age := 16, product_code := "B001", product_name := "B", unit := "per_10k",
      amount := 10000, qty := 1, unit_rate := 5, year_premium := 5 },
    { age := 17, product_code := "B001", product_name := "B", unit := "per_10k",
      amount := 10000, qty := 1, unit_rate := 5, year_premium := 5 },
    { age := 16, product_code := "A001", product_name := "A", unit := "per_10k",
      amount := 10000, qty := 1, unit_rate := 3, year_premium := 3 },
    { age := 17, product_code := "A001", product_name := "A", unit := "per_10k",
      amount := 10000, qty := 1, unit_rate := 3, year_premium := 3 } ]

/-- The year-summary rows matching `detailTwo`. -/
def suTwo : List YearRow :=
  [ { age := 16, year_total := 8, cumulative := 8 },
    { age := 17, year_total := 8, cumulative := 16 } ]

section MainTheorems

set_option allowUnsafeReducibility true
attribute [local semireducible] Rat.add Rat.mul Rat.div Rat.sub Rat.neg Rat.inv

/-- C2: on the concrete scenario (one product A001 at unit per_10k, sex M,
ages 16-20 at rate 5.0; one item with face amount 1,000,000 and quantity 1;
window M, 16-18 inclusive) `calc_total` yields multiplier 100, year premium
500.0 at ages 16, 17 and 18, the year summary rows (16,500,500),
(17,500,1000), (18,500,1500), and total 1500.0. -/
theorem calc_total_end_to_end :
    unit_to_multiplier "per_10k" 1000000 = .ok 100 ∧
    calc_total repoA [itemA] "M" 16 18 true =
      .ok (1500,
        [ { age := 16, product_code := "A001", product_name := "TestLife", unit := "per_10k",
            amount := 1000000, qty := 1, unit_rate := 5, year_premium := 500 },
          { age := 17, product_code := "A001", product_name := "TestLife", unit := "per_10k",
            amount := 1000000, qty := 1, unit_rate := 5, year_premium := 500 },
          { age := 18, product_code := "A001", product_name := "TestLife", unit := "per_10k",
            amount := 1000000, qty := 1, unit_rate := 5, year_premium := 500 } ],
        [ { age := 16, year_total := 500, cumulative := 500 },
          { age := 17, year_total := 500, cumulative := 1000 },
          { age := 18, year_total := 500, cumulative := 1500 } ]) := by
  constructor
  · decide
  · decide

/-- C1: on the degenerate window (start_age = end_age = 20,
include_end_age = false) with a non-empty basket whose product and sex are
present, `calc_total` does NOT return an empty zero-total result: the empty
detail list makes `pd.DataFrame(rows_year)` a frame without columns, and
`groupby("年齡")` raises `KeyError`. This evaluates the code at the failing
input of the code_bug. -/
theorem calc_total_degenerate_window_raises :
    calc_total repoA [itemA] "M" 20 20 false = .error (.keyError "年齡") := by
  decide

/-- C4: `unit_to_multiplier` divides the face amount by 10,000 for per_10k,
by 1,000 for per_1k, returns it unchanged for per_1, and fails with the
unsupported-unit error on every other unit string, with no silent
fallback. -/
theorem unit_to_multiplier_spec (amount : Rat) (u : String)
    (hu : u ≠ "per_10k" ∧ u ≠ "per_1k" ∧ u ≠ "per_1") :
    unit_to_multiplier "per_10k" amount = .ok (amount / 10000) ∧
    unit_to_multiplier "per_1k" amount = .ok (amount / 1000) ∧
    unit_to_multiplier "per_1" amount = .ok amount ∧
    unit_to_multiplier u amount = .error (.unsupportedUnit u) := by
  refine ⟨by simp [unit_to_multiplier], by simp [unit_to_multiplier],
    by simp [unit_to_multiplier], ?_⟩
  simp [unit_to_multiplier, hu.1, hu.2.1, hu.2.2]

/-- Witness for C4 at amount 1,000,000 and the unsupported unit "per_2k". -/
theorem unit_to_multiplier_spec_witness :
    (("per_2k" : String) ≠ "per_10k" ∧ ("per_2k" : String) ≠ "per_1k" ∧
      ("per_2k" : String) ≠ "per_1") ∧
    (unit_to_multiplier "per_10k" 1000000 = .ok ((1000000 : Rat) / 10000) ∧
     unit_to_multiplier "per_1k" 1000000 = .ok ((1000000 : Rat) / 1000) ∧
     unit_to_multiplier "per_1" 1000000 = .ok 1000000 ∧
     unit_to_multiplier "per_2k" 1000000 = .error (.unsupportedUnit "per_2k")) :=
  ⟨by decide, unit_to_multiplier_spec 1000000 "per_2k" (by decide)⟩

/-- C8: with end_age ≥ start_age the target age sequence holds exactly the
integers from start_age up to and including end_age when include_end_age is
set, and up to end_age excluded otherwise; in particular 16..50 gives 35
ages inclusive and 34 exclusive. With end_age < start_age, `calc_total`
fails with the invalid-range error. -/
theorem agesList_spec (start_age end_age a : Int)
    (repo : List RateRow) (items : List Item) (sex : String)
    (s e : Int) (inc : Bool)
    (hrange : start_age ≤ end_age) (hbad : e < s) :
    (a ∈ agesList start_age end_age true ↔ start_age ≤ a ∧ a ≤ end_age) ∧
    (a ∈ agesList start_age end_age false ↔ start_age ≤ a ∧ a < end_age) ∧
    (agesList 16 50 true).length = 35 ∧
    (agesList 16 50 false).length = 34 ∧
    calc_total repo items sex s e inc = .error .invalidRange := by
  refine ⟨?_, ?_, by decide, by decide, ?_⟩
  · simp only [agesList, reduceIte]
    rw [List.mem_map]
    constructor
    · rintro ⟨i, hi, rfl⟩
      rw [List.mem_range] at hi
      omega
    · rintro ⟨h1, h2⟩
      refine ⟨(a - start_age).toNat, ?_, ?_⟩
      · rw [List.mem_range]
        omega
      · omega
  · simp only [agesList, Bool.false_eq_true, if_false]
    rw [List.mem_map]
    constructor
    · rintro ⟨i, hi, rfl⟩
      rw [List.mem_range] at hi
      omega
    · rintro ⟨h1, h2⟩
      refine ⟨(a - start_age).toNat, ?_, ?_⟩
      · rw [List.mem_range]
        omega
      · omega
  · unfold calc_total
    rw [if_pos hbad]

/-- Witness for C8 at the window 16..50, probe age 17, and the reversed
window 20..19. -/
theorem agesList_spec_witness :
    ((16 : Int) ≤ 50 ∧ (19 : Int) < 20) ∧
    (((17 : Int) ∈ agesList 16 50 true ↔ (16 : Int) ≤ 17 ∧ (17 : Int) ≤ 50) ∧
     ((17 : Int) ∈ agesList 16 50 false ↔ (16 : Int) ≤ 17 ∧ (17 : Int) < 50) ∧
     (agesList 16 50 true).length = 35 ∧
     (agesList 16 50 false).length = 34 ∧
     calc_total [] [] "M" 20 19 true = .error .invalidRange) :=
  ⟨⟨by decide, by decide⟩, agesList_spec 16 50 17 [] [] "M" 20 19 true (by decide) (by decide)⟩

/-- C10: when the rates directory does not exist, or it exists but contains
no CSV file, `load_rates` returns the empty table and raises nothing. -/
theorem load_rates_missing_dir_or_no_files (dirExists : Bool) (files : List CsvFile)
    (h : dirExists = false ∨ files = []) :
    load_rates dirExists files = .ok [] := by
  rcases h with h | h
  · unfold load_rates
    rw [h]
    simp
  · subst h
    unfold load_rates
    cases dirExists <;> simp

/-- Witness for C10: a missing directory whose file list still names an
undecodable file. -/
theorem load_rates_missing_dir_or_no_files_witness :
    (false = false ∨ ([fileX] : List CsvFile) = []) ∧
    load_rates false [fileX] = .ok [] :=
  ⟨Or.inl rfl, load_rates_missing_dir_or_no_files false [fileX] (Or.inl rfl)⟩

/-- When the per-item loop raises, `calc_total` propagates that error
(the aggregation code after the loop is never reached). -/
lemma calc_total_err_of_calcRows_err (repo : List RateRow) (items : List Item)
    (sex : String) (s e : Int) (inc : Bool) (err : CalcError)
    (hrange : ¬ e < s)
    (h : calcRows repo sex (agesList s e inc) items = .error err) :
    calc_total repo items sex s e inc = .error err := by
  simp only [calc_total]
  rw [if_neg hrange, h]

/-- An error on the first item aborts the whole loop with that error. -/
lemma calcRows_cons_err (repo : List RateRow) (sex : String) (ages : List Int)
    (item : Item) (rest : List Item) (err : CalcError)
    (h : processItem repo sex ages item = .error err) :
    calcRows repo sex ages (item :: rest) = .error err := by
  unfold calcRows
  rw [h]

/-- The per-item body raises the missing-age error carrying exactly the
filter of the target ages absent from the rate lookup, once the earlier
checks pass and at least one age is absent. -/
lemma processItem_missing_err (repo : List RateRow) (sex : String)
    (ages : List Int) (item : Item) (u : String) (m : Rat)
    (hsub : (subFor repo item.product_code sex).isEmpty = false)
    (hunit : uniqueList ((subFor repo item.product_code sex).map (fun r => r.unit)) = [u])
    (hconv : unit_to_multiplier u item.amount = .ok m)
    (hmiss : (ages.filter
      (fun a => (rate_map (subFor repo item.product_code sex) a).isNone)).isEmpty = false) :
    processItem repo sex ages item =
      .error (.missingAges item.product_code
        (ages.filter
          (fun a => (rate_map (subFor repo item.product_code sex) a).isNone))) := by
  simp only [processItem, hsub, Bool.false_eq_true, if_false, hunit, hconv, hmiss]

/-- The per-item body raises the inconsistent-unit error naming the product
and the distinct units, whenever there are at least two of them. -/
lemma processItem_inconsistent_err (repo : List RateRow) (sex : String)
    (ages : List Int) (item : Item) (us : List String)
    (hsub : (subFor repo item.product_code sex).isEmpty = false)
    (hunit : uniqueList ((subFor repo item.product_code sex).map (fun r => r.unit)) = us)
    (hlen : 2 ≤ us.length) :
    processItem repo sex ages item = .error (.inconsistentUnit item.product_code us) := by
  simp only [processItem, hsub, Bool.false_eq_true, if_false]
  rw [hunit]
  match us, hlen with
  | u :: v :: t, _ => rfl

/-- A successful `calc_total` means the per-item loop succeeded on the very
age sequence of the window. -/
lemma calc_total_ok_calcRows (repo : List RateRow) (items : List Item)
    (sex : String) (s e : Int) (inc : Bool)
    (out : Rat × List DetailRow × List YearRow)
    (h : calc_total repo items sex s e inc = .ok out) :
    ∃ rows, calcRows repo sex (agesList s e inc) items = .ok rows := by
  simp only [calc_total] at h
  by_cases hr : e < s
  · rw [if_pos hr] at h
    cases h
  · rw [if_neg hr] at h
    cases hcr : calcRows repo sex (agesList s e inc) items with
    | error err => rw [hcr] at h; cases h
    | ok rows => exact ⟨rows, rfl⟩

/-- A successful loop means every item of the basket was processed
successfully. -/
lemma calcRows_ok_each (repo : List RateRow) (sex : String) (ages : List Int)
    (items : List Item) (rows : List DetailRow)
    (h : calcRows repo sex ages items = .ok rows) :
    ∀ it ∈ items, ∃ rws, processItem repo sex ages it = .ok rws := by
  induction items generalizing rows with
  | nil =>
    intro it hit
    cases hit
  | cons x xs ih =>
    intro it hit
    unfold calcRows at h
    cases hp : processItem repo sex ages x with
    | error err => rw [hp] at h; cases h
    | ok rws =>
      rw [hp] at h
      cases hc : calcRows repo sex ages xs with
      | error err => rw [hc] at h; cases h
      | ok more =>
        rcases List.mem_cons.mp hit with rfl | hit2
        · exact ⟨rws, hp⟩
        · exact ih more hc it hit2

/-- A successfully processed item has exactly one distinct unit among its
matched records. -/
lemma processItem_ok_unit_length (repo : List RateRow) (sex : String)
    (ages : List Int) (it : Item) (rws : List DetailRow)
    (h : processItem repo sex ages it = .ok rws) :
    (uniqueList ((subFor repo it.product_code sex).map (fun r => r.unit))).length = 1 := by
  simp only [processItem] at h
  by_cases hs : (subFor repo it.product_code sex).isEmpty
  · rw [if_pos hs] at h
    cases h
  · rw [if_neg hs] at h
    cases hu : uniqueList ((subFor repo it.product_code sex).map (fun r => r.unit)) with
    | nil => rw [hu] at h; simp at h
    | cons u t =>
      cases t with
      | nil => simp [hu]
      | cons v t2 => rw [hu] at h; simp at h

/-- C6: when the matched rate rows of the first basket item pass the
presence, unit-consistency and unit-conversion checks but the age→rate
lookup misses at least one target age, `calc_total` fails with the
missing-age error whose payload is the list of ALL missing target ages for
that product, not only the first. -/
theorem calc_total_missing_ages (repo : List RateRow) (item : Item)
    (rest : List Item) (sex : String) (s e : Int) (inc : Bool) (u : String) (m : Rat)
    (hrange : ¬ e < s)
    (hsub : (subFor repo item.product_code sex).isEmpty = false)
    (hunit : uniqueList ((subFor repo item.product_code sex).map (fun r => r.unit)) = [u])
    (hconv : unit_to_multiplier u item.amount = .ok m)
    (hmiss : ((agesList s e inc).filter
      (fun a => (rate_map (subFor repo item.product_code sex) a).isNone)).isEmpty = false) :
    calc_total repo (item :: rest) sex s e inc =
      .error (.missingAges item.product_code
        ((agesList s e inc).filter
          (fun a => (rate_map (subFor repo item.product_code sex) a).isNone))) :=
  calc_total_err_of_calcRows_err repo (item :: rest) sex s e inc _ hrange
    (calcRows_cons_err repo sex (agesList s e inc) item rest _
      (processItem_missing_err repo sex (agesList s e inc) item u m hsub hunit hconv hmiss))

/-- Witness for C6: rates cover ages 16-20 but the window asks 16-25, so
the error lists all of 21, 22, 23, 24, 25. -/
theorem calc_total_missing_ages_witness :
    (¬ (25 : Int) < 16) ∧
    (subFor repoA itemA.product_code "M").isEmpty = false ∧
    uniqueList ((subFor repoA itemA.product_code "M").map (fun r => r.unit)) = ["per_10k"] ∧
    unit_to_multiplier "per_10k" itemA.amount = .ok 100 ∧
    ((agesList 16 25 true).filter
      (fun a => (rate_map (subFor repoA itemA.product_code "M") a).isNone)).isEmpty = false ∧
    ((agesList 16 25 true).filter
      (fun a => (rate_map (subFor repoA itemA.product_code "M") a).isNone)) = [21, 22, 23, 24, 25] ∧
    calc_total repoA [itemA] "M" 16 25 true =
      .error (.missingAges itemA.product_code
        ((agesList 16 25 true).filter
          (fun a => (rate_map (subFor repoA itemA.product_code "M") a).isNone))) :=
  ⟨by decide, by decide, by decide, by decide, by decide, by decide,
    calc_total_missing_ages repoA itemA [] "M" 16 25 true "per_10k" 100
      (by decide) (by decide) (by decide) (by decide) (by decide)⟩

/-- C7: when the matched records of the first basket item carry two or more
distinct unit values, `calc_total` fails with the inconsistent-unit error
naming the product and the conflicting units; and any successful call had
exactly one distinct unit for every item of its basket. -/
theorem calc_total_unit_consistency (repo : List RateRow) (item : Item)
    (rest : List Item) (sex : String) (s e : Int) (inc : Bool) (us : List String)
    (hrange : ¬ e < s)
    (hsub : (subFor repo item.product_code sex).isEmpty = false)
    (hunit : uniqueList ((subFor repo item.product_code sex).map (fun r => r.unit)) = us)
    (hlen : 2 ≤ us.length) :
    calc_total repo (item :: rest) sex s e inc =
      .error (.inconsistentUnit item.product_code us) ∧
    ∀ (items2 : List Item) (out : Rat × List DetailRow × List YearRow),
      calc_total repo items2 sex s e inc = .ok out →
      ∀ it ∈ items2,
        (uniqueList ((subFor repo it.product_code sex).map (fun r => r.unit))).length = 1 := by
  constructor
  · exact calc_total_err_of_calcRows_err repo (item :: rest) sex s e inc _ hrange
      (calcRows_cons_err repo sex (agesList s e inc) item rest _
        (processItem_inconsistent_err repo sex (agesList s e inc) item us hsub hunit hlen))
  · intro items2 out hok it hit
    obtain ⟨rows, hrows⟩ := calc_total_ok_calcRows repo items2 sex s e inc out hok
    obtain ⟨rws, hp⟩ := calcRows_ok_each repo sex (agesList s e inc) items2 rows hrows it hit
    exact processItem_ok_unit_length repo sex (agesList s e inc) it rws hp

/-- Witness for C7: product X mixes per_10k and per_1k, so the error names
both. -/
theorem calc_total_unit_consistency_witness :
    ((¬ (17 : Int) < 16) ∧
     (subFor repoU itemU.product_code "M").isEmpty = false ∧
     uniqueList ((subFor repoU itemU.product_code "M").map (fun r => r.unit)) =
       ["per_10k", "per_1k"] ∧
     2 ≤ (["per_10k", "per_1k"] : List String).length) ∧
    (calc_total repoU [itemU] "M" 16 17 true =
       .error (.inconsistentUnit itemU.product_code ["per_10k", "per_1k"]) ∧
     ∀ (items2 : List Item) (out : Rat × List DetailRow × List YearRow),
       calc_total repoU items2 "M" 16 17 true = .ok out →
       ∀ it ∈ items2,
         (uniqueList ((subFor repoU it.product_code "M").map (fun r => r.unit))).length = 1) :=
  ⟨⟨by decide, by decide, by decide, by decide⟩,
    calc_total_unit_consistency repoU itemU [] "M" 16 17 true ["per_10k", "per_1k"]
      (by decide) (by decide) (by decide) (by decide)⟩

/-- A successful `calc_total` decomposes into a successful loop, the year
summary of its rows, and the summary's total. -/
lemma calc_total_ok_parts (repo : List RateRow) (items : List Item)
    (sex : String) (s e : Int) (inc : Bool) (total : Rat)
    (detail : List DetailRow) (su : List YearRow)
    (h : calc_total repo items sex s e inc = .ok (total, detail, su)) :
    calcRows repo sex (agesList s e inc) items = .ok detail ∧
    su = yearSummary detail ∧
    total = (su.map (fun y => y.year_total)).sum := by
  simp only [calc_total] at h
  split at h
  · cases h
  · split at h
    · cases h
    · rename_i rows hcr
      split at h
      · cases h
      · cases h
        exact ⟨hcr, rfl, rfl⟩

/-- The cumulative pass keeps the age column unchanged. -/
lemma runningRows_map_age (rows : List DetailRow) (ages : List Int) (acc : Rat) :
    (runningRows rows ages acc).map (fun y => y.age) = ages := by
  induction ages generalizing acc with
  | nil => rfl
  | cons a rest ih => simp only [runningRows, List.map_cons, ih]

/-- The grouped-and-sorted age keys are sorted. -/
lemma agesOf_sorted (rows : List DetailRow) :
    List.Sorted (fun a b => a ≤ b) (agesOf rows) := by
  unfold agesOf
  exact List.sorted_insertionSort (fun a b => a ≤ b) ((rows.map (fun r => r.age)).dedup)

/-- A successfully processed item yields one detail row per target age, in
age order, all carrying the item's product code. -/
lemma processItem_ok_shape (repo : List RateRow) (sex : String) (ages : List Int)
    (it : Item) (rws : List DetailRow)
    (h : processItem repo sex ages it = .ok rws) :
    rws.map (fun r => (r.age, r.product_code)) = ages.map (fun a => (a, it.product_code)) := by
  simp only [processItem] at h
  split at h
  · cases h
  · split at h
    · split at h
      · cases h
      · split at h
        · cases h
          rw [List.map_map]
          simp [Function.comp, detailRowOf]
        · cases h
    · cases h

/-- A successful loop emits the per-item blocks in basket order, each block
being the full age sequence tagged with that item's product code. -/
lemma calcRows_ok_shape (repo : List RateRow) (sex : String) (ages : List Int)
    (items : List Item) (rows : List DetailRow)
    (h : calcRows repo sex ages items = .ok rows) :
    rows.map (fun r => (r.age, r.product_code)) =
      items.flatMap (fun it => ages.map (fun a => (a, it.product_code))) := by
  induction items generalizing rows with
  | nil =>
    unfold calcRows at h
    cases h
    rfl
  | cons x xs ih =>
    unfold calcRows at h
    cases hp : processItem repo sex ages x with
    | error err => rw [hp] at h; cases h
    | ok rws =>
      rw [hp] at h
      cases hc : calcRows repo sex ages xs with
      | error err => rw [hc] at h; cases h
      | ok more =>
        rw [hc] at h
        cases h
        rw [List.flatMap_cons, List.map_append, processItem_ok_shape repo sex ages x rws hp,
          ih more hc]

/-- Every row a successfully processed item emits is priced by the rate the
age→rate dict lookup returns, i.e. by the LAST matching record's rate. -/
lemma processItem_ok_rate (repo : List RateRow) (sex : String) (ages : List Int)
    (it : Item) (rws : List DetailRow)
    (h : processItem repo sex ages it = .ok rws) :
    ∀ row ∈ rws, row.product_code = it.product_code ∧
      rate_map (subFor repo it.product_code sex) row.age = some row.unit_rate := by
  simp only [processItem] at h
  split at h
  · cases h
  · split at h
    · split at h
      · cases h
      · split at h
        · rename_i hmiss
          cases h
          intro row hrow
          rw [List.mem_map] at hrow
          obtain ⟨a, ha, rfl⟩ := hrow
          have hnone : ∀ b ∈ ages,
              ¬ ((rate_map (subFor repo it.product_code sex) b).isNone = true) := by
            rw [← List.filter_eq_nil_iff, ← List.isEmpty_iff]
            exact hmiss
          have h2 := hnone a ha
          cases hv : rate_map (subFor repo it.product_code sex) a with
          | none => rw [hv] at h2; cases h2 rfl
          | some v =>
            refine ⟨rfl, ?_⟩
            simp [detailRowOf, hv]
        · cases h
    · cases h

/-- Every row of a successful loop is priced by the last matching record's
rate for its product and age. -/
lemma calcRows_ok_rate (repo : List RateRow) (sex : String) (ages : List Int)
    (items : List Item) (rows : List DetailRow)
    (h : calcRows repo sex ages items = .ok rows) :
    ∀ row ∈ rows, rate_map (subFor repo row.product_code sex) row.age = some row.unit_rate := by
  induction items generalizing rows with
  | nil =>
    unfold calcRows at h
    cases h
    intro row hrow
    cases hrow
  | cons x xs ih =>
    unfold calcRows at h
    cases hp : processItem repo sex ages x with
    | error err => rw [hp] at h; cases h
    | ok rws =>
      rw [hp] at h
      cases hc : calcRows repo sex ages xs with
      | error err => rw [hc] at h; cases h
      | ok more =>
        rw [hc] at h
        cases h
        intro row hrow
        rcases List.mem_append.mp hrow with hmem | hmem
        · obtain ⟨hcode, hrate⟩ := processItem_ok_rate repo sex ages x rws hp row hmem
          rw [hcode]
          exact hrate
        · exact ih more hc row hmem

/-- C3(counterexample): with the basket listing B001 before A001, the detail
rows `calc_total` returns are NOT sorted by (age, product_code) — they come
grouped per item; only the UI sorts them for display. -/
theorem calc_total_detail_unsorted :
    calc_total repoTwo [itemB, itemA2] "M" 16 17 true = .ok (16, detailTwo, suTwo) ∧
    sortedByAgeCode detailTwo = false := by
  constructor
  · decide
  · decide

/-- C3(amended): on every successful call the year-summary rows are sorted
by age ascending, and the detail rows come grouped per basket item in
request order, each item's block covering the target ages in ascending
order (they are not globally sorted by (age, product_code)). -/
theorem calc_total_output_order (repo : List RateRow) (items : List Item)
    (sex : String) (s e : Int) (inc : Bool) (total : Rat)
    (detail : List DetailRow) (su : List YearRow)
    (h : calc_total repo items sex s e inc = .ok (total, detail, su)) :
    List.Sorted (fun a b => a ≤ b) (su.map (fun y => y.age)) ∧
    detail.map (fun r => (r.age, r.product_code)) =
      items.flatMap (fun it => (agesList s e inc).map (fun a => (a, it.product_code))) := by
  obtain ⟨hcr, hsu, -⟩ := calc_total_ok_parts repo items sex s e inc total detail su h
  constructor
  · subst hsu
    unfold yearSummary
    rw [runningRows_map_age]
    exact agesOf_sorted detail
  · exact calcRows_ok_shape repo sex (agesList s e inc) items detail hcr

/-- Witness for C3(amended) on the end-to-end scenario. -/
theorem calc_total_output_order_witness :
    calc_total repoA [itemA] "M" 16 18 true = .ok (1500, detailA, suA) ∧
    (List.Sorted (fun a b => a ≤ b) (suA.map (fun y => y.age)) ∧
     detailA.map (fun r => (r.age, r.product_code)) =
       [itemA].flatMap (fun it => (agesList 16 18 true).map (fun a => (a, it.product_code)))) :=
  ⟨by decide, calc_total_output_order repoA [itemA] "M" 16 18 true 1500 detailA suA (by decide)⟩

/-- C9(counterexample): with two (A001, M, 16) rows at rates 5 then 7, the
code neither prices with the first row's rate 5 nor raises: it succeeds and
prices with the last row's rate 7 (which is also not the average 6). -/
theorem calc_total_duplicate_uses_last_row :
    calc_total repoDup [itemDup] "M" 16 16 true = .ok (7, detailDup, suDup) ∧
    repoDup.head?.map (fun r => r.rate) = some 5 ∧
    detailDup.map (fun r => r.unit_rate) = [7] ∧
    (7 : Rat) ≠ 5 ∧ (7 : Rat) ≠ 6 := by
  refine ⟨by decide, by decide, by decide, by decide, by decide⟩

/-- C9(amended): duplicate (product_code, sex, age) rows are resolved by
dict construction order — every returned detail row is priced with the rate
of the LAST matching record (`rate_map` looks up the last row); the code
never averages duplicates and raises no error for them. -/
theorem calc_total_last_match_wins (repo : List RateRow) (items : List Item)
    (sex : String) (s e : Int) (inc : Bool) (total : Rat)
    (detail : List DetailRow) (su : List YearRow)
    (h : calc_total repo items sex s e inc = .ok (total, detail, su)) :
    ∀ row ∈ detail,
      rate_map (subFor repo row.product_code sex) row.age = some row.unit_rate := by
  obtain ⟨hcr, -, -⟩ := calc_total_ok_parts repo items sex s e inc total detail su h
  exact calcRows_ok_rate repo sex (agesList s e inc) items detail hcr

/-- Witness for C9(amended) on the duplicate-row table: the single detail
row carries rate 7, the last matching record's rate. -/
theorem calc_total_last_match_wins_witness :
    calc_total repoDup [itemDup] "M" 16 16 true = .ok (7, detailDup, suDup) ∧
    ∀ row ∈ detailDup,
      rate_map (subFor repoDup row.product_code "M") row.age = some row.unit_rate :=
  ⟨by decide,
    calc_total_last_match_wins repoDup [itemDup] "M" 16 16 true 7 detailDup suDup (by decide)⟩

/-- The cumulative pass's per-age totals are the grouped sums of the ages
it is given. -/
lemma runningRows_map_total (rows : List DetailRow) (ages : List Int) (acc : Rat) :
    (runningRows rows ages acc).map (fun y => y.year_total) = ages.map (sumPremAt rows) := by
  induction ages generalizing acc with
  | nil => rfl
  | cons a rest ih => simp only [runningRows, List.map_cons, ih]

/-- Each cumulative value of the running pass is the accumulator plus the
sum of the per-age totals up to and including that row. -/
lemma runningRows_cum_get (rows : List DetailRow) (ages : List Int) (acc : Rat)
    (k : Fin (runningRows rows ages acc).length) :
    ((runningRows rows ages acc).get k).cumulative =
      acc + (((runningRows rows ages acc).map (fun y => y.year_total)).take (k.1 + 1)).sum := by
  induction ages generalizing acc with
  | nil => exact absurd k.2 (by simp [runningRows])
  | cons a rest ih =>
    match k with
    | ⟨0, h0⟩ => simp [runningRows]
    | ⟨kk + 1, hsucc⟩ =>
      have hlen : kk < (runningRows rows rest (acc + sumPremAt rows a)).length := by
        simpa [runningRows] using hsucc
      have hih := ih (acc + sumPremAt rows a) ⟨kk, hlen⟩
      simp only [runningRows, List.get_cons_succ, List.map_cons, List.take_succ_cons,
        List.sum_cons]
      rw [hih]
      ring

/-- Premiums per age are non-negative once all the detail premiums are. -/
lemma sumPremAt_nonneg (rows : List DetailRow)
    (h : ∀ row ∈ rows, 0 ≤ row.year_premium) (a : Int) : 0 ≤ sumPremAt rows a := by
  unfold sumPremAt
  apply List.sum_nonneg
  intro x hx
  rw [List.mem_map] at hx
  obtain ⟨row, hrow, rfl⟩ := hx
  exact h row (List.mem_of_mem_filter hrow)

/-- With non-negative per-age totals, every cumulative value is at least the
starting accumulator. -/
lemma runningRows_cum_ge (rows : List DetailRow) (ages : List Int) (acc : Rat)
    (hnn : ∀ b : Int, 0 ≤ sumPremAt rows b) :
    ∀ y ∈ runningRows rows ages acc, acc ≤ y.cumulative := by
  induction ages generalizing acc with
  | nil =>
    intro y hy
    cases hy
  | cons a rest ih =>
    intro y hy
    simp only [runningRows] at hy
    rcases List.mem_cons.mp hy with rfl | hy2
    · exact le_add_of_nonneg_right (hnn a)
    · exact le_trans (le_add_of_nonneg_right (hnn a)) (ih (acc + sumPremAt rows a) y hy2)

/-- With non-negative per-age totals, the cumulative column is
non-decreasing. -/
lemma runningRows_cum_pairwise (rows : List DetailRow) (ages : List Int) (acc : Rat)
    (hnn : ∀ b : Int, 0 ≤ sumPremAt rows b) :
    ((runningRows rows ages acc).map (fun y => y.cumulative)).Pairwise (fun x y => x ≤ y) := by
  induction ages generalizing acc with
  | nil => simp [runningRows]
  | cons a rest ih =>
    simp only [runningRows, List.map_cons]
    rw [List.pairwise_cons]
    refine ⟨?_, ih (acc + sumPremAt rows a)⟩
    intro c hc
    rw [List.mem_map] at hc
    obtain ⟨y, hy, rfl⟩ := hc
    exact runningRows_cum_ge rows rest (acc + sumPremAt rows a) hnn y hy

/-- The last cumulative value is the accumulator plus the sum of all the
per-age totals. -/
lemma runningRows_cum_last (rows : List DetailRow) (ages : List Int) (acc : Rat) :
    ((runningRows rows ages acc).map (fun y => y.cumulative)).getLastD acc =
      acc + (ages.map (sumPremAt rows)).sum := by
  induction ages generalizing acc with
  | nil => simp [runningRows]
  | cons a rest ih =>
    simp only [runningRows, List.map_cons, List.getLastD_cons, List.sum_cons]
    rw [ih (acc + sumPremAt rows a)]
    ring

/-- A successful unit conversion of a non-negative amount is non-negative. -/
lemma unit_to_multiplier_nonneg (u : String) (amt m : Rat)
    (hamt : 0 ≤ amt) (h : unit_to_multiplier u amt = .ok m) : 0 ≤ m := by
  unfold unit_to_multiplier at h
  split at h
  · cases h
    exact div_nonneg hamt (by norm_num)
  · split at h
    · cases h
      exact div_nonneg hamt (by norm_num)
    · split at h
      · cases h
        exact hamt
      · cases h

/-- A rate the age→rate dict returns is the rate of one of the matched
records. -/
lemma rate_map_mem (sub : List RateRow) (a : Int) (v : Rat)
    (h : rate_map sub a = some v) : ∃ r ∈ sub, r.rate = v := by
  unfold rate_map at h
  cases hf : sub.reverse.find? (fun r => r.age == a) with
  | none => rw [hf] at h; cases h
  | some r =>
    rw [hf] at h
    cases h
    exact ⟨r, List.mem_reverse.mp (List.mem_of_find?_eq_some hf), rfl⟩

/-- With non-negative repository rates and a non-negative face amount and
quantity, every premium a processed item emits is non-negative. -/
lemma processItem_ok_nonneg (repo : List RateRow) (sex : String) (ages : List Int)
    (it : Item) (rws : List DetailRow)
    (hrates : ∀ r ∈ repo, 0 ≤ r.rate)
    (hamt : 0 ≤ it.amount) (hqty : 0 ≤ it.qty)
    (h : processItem repo sex ages it = .ok rws) :
    ∀ row ∈ rws, 0 ≤ row.year_premium := by
  simp only [processItem] at h
  split at h
  · cases h
  · split at h
    · split at h
      · cases h
      · rename_i m hconv
        split at h
        · cases h
          intro row hrow
          rw [List.mem_map] at hrow
          obtain ⟨a, ha, rfl⟩ := hrow
          have hm : 0 ≤ m := unit_to_multiplier_nonneg _ _ _ hamt hconv
          have hq : (0 : Rat) ≤ (it.qty : Rat) := by exact_mod_cast hqty
          simp only [detailRowOf]
          refine mul_nonneg ?_ (mul_nonneg hm hq)
          cases hv : rate_map (subFor repo it.product_code sex) a with
          | none => exact le_refl 0
          | some v =>
            obtain ⟨r, hr, hrv⟩ := rate_map_mem _ _ _ hv
            exact hrv ▸ hrates r (List.mem_of_mem_filter hr)
        · cases h
    · cases h

/-- With non-negative rates, amounts and quantities, every premium of a
successful loop is non-negative. -/
lemma calcRows_ok_nonneg (repo : List RateRow) (sex : String) (ages : List Int)
    (items : List Item) (rows : List DetailRow)
    (hrates : ∀ r ∈ repo, 0 ≤ r.rate)
    (hitems : ∀ it ∈ items, 0 ≤ it.amount ∧ 0 ≤ it.qty)
    (h : calcRows repo sex ages items = .ok rows) :
    ∀ row ∈ rows, 0 ≤ row.year_premium := by
  induction items generalizing rows with
  | nil =>
    unfold calcRows at h
    cases h
    intro row hrow
    cases hrow
  | cons x xs ih =>
    unfold calcRows at h
    cases hp : processItem repo sex ages x with
    | error err => rw [hp] at h; cases h
    | ok rws =>
      rw [hp] at h
      cases hc : calcRows repo sex ages xs with
      | error err => rw [hc] at h; cases h
      | ok more =>
        rw [hc] at h
        cases h
        intro row hrow
        rcases List.mem_append.mp hrow with hmem | hmem
        · exact processItem_ok_nonneg repo sex ages x rws hrates
            (hitems x (List.mem_cons_self x xs)).1 (hitems x (List.mem_cons_self x xs)).2
            hp row hmem
        · exact ih more (fun it hit => hitems it (List.mem_cons_of_mem x hit)) hc row hmem

/-- C5: on every successful call with non-negative rates, face amounts and
quantities, the cumulative column of the year summary is the prefix sum of
the per-age totals (in the summary's ascending age order), is monotonically
non-decreasing, and its last value (zero when the summary is empty) equals
the returned total. -/
theorem calc_total_cumulative_spec (repo : List RateRow) (items : List Item)
    (sex : String) (s e : Int) (inc : Bool) (total : Rat)
    (detail : List DetailRow) (su : List YearRow)
    (hrates : ∀ r ∈ repo, 0 ≤ r.rate)
    (hitems : ∀ it ∈ items, 0 ≤ it.amount ∧ 0 ≤ it.qty)
    (h : calc_total repo items sex s e inc = .ok (total, detail, su)) :
    (∀ k : Fin su.length,
      (su.get k).cumulative = ((su.map (fun y => y.year_total)).take (k.1 + 1)).sum) ∧
    (su.map (fun y => y.cumulative)).Pairwise (fun x y => x ≤ y) ∧
    (su.map (fun y => y.cumulative)).getLastD 0 = total := by
  obtain ⟨hcr, hsu, htot⟩ := calc_total_ok_parts repo items sex s e inc total detail su h
  have hnnrows : ∀ row ∈ detail, 0 ≤ row.year_premium :=
    calcRows_ok_nonneg repo sex (agesList s e inc) items detail hrates hitems hcr
  have hnn : ∀ b : Int, 0 ≤ sumPremAt detail b := sumPremAt_nonneg detail hnnrows
  subst hsu
  subst htot
  refine ⟨?_, ?_, ?_⟩
  · intro k
    unfold yearSummary
    have h3 := runningRows_cum_get detail (agesOf detail) 0 k
    rw [zero_add] at h3
    exact h3
  · unfold yearSummary
    exact runningRows_cum_pairwise detail (agesOf detail) 0 hnn
  · unfold yearSummary
    rw [runningRows_cum_last, runningRows_map_total, zero_add]

/-- Witness for C5 on the end-to-end scenario: the cumulative column
500, 1000, 1500 is the prefix sum of 500, 500, 500 and ends at the total
1500. -/
theorem calc_total_cumulative_spec_witness :
    ((∀ r ∈ repoA, 0 ≤ r.rate) ∧
     (∀ it ∈ ([itemA] : List Item), 0 ≤ it.amount ∧ 0 ≤ it.qty) ∧
     calc_total repoA [itemA] "M" 16 18 true = .ok (1500, detailA, suA)) ∧
    ((∀ k : Fin suA.length,
        (suA.get k).cumulative = ((suA.map (fun y => y.year_total)).take (k.1 + 1)).sum) ∧
     (suA.map (fun y => y.cumulative)).Pairwise (fun x y => x ≤ y) ∧
     (suA.map (fun y => y.cumulative)).getLastD 0 = 1500) :=
  ⟨⟨by decide, by decide, by decide⟩,
    calc_total_cumulative_spec repoA [itemA] "M" 16 18 true 1500 detailA suA
      (by decide) (by decide) (by decide)⟩

end MainTheorems

end ProductApp
